import Mathlib

set_option autoImplicit false

namespace FATT

/-!
Verification development for the realtime event pipeline of the "advanced"
project (`src/projects/03-advanced/app`): envelope codec (`messaging.py`),
connection registry and activity events (`realtime.py`), consumer worker
(`worker.py`), pipeline composition (`messaging.py`) and realtime token
checks (`auth.py`).

Modelling conventions, applied throughout:
* Python strings are `String`; `datetime` instants are `Nat` (an abstract
  UTC instant — only construction-time stamping matters here);
* `uuid4()` and `datetime.now()` are modelled as explicit parameters
  (`fresh...`, `now`) supplied by the environment at each call;
* Python `dict`s are insertion-ordered association lists; Python `set`s are
  duplicate-free lists (membership is checked before insertion, mirroring
  `set.add`); `Any`-typed payload values are abstracted to `String`;
* fallible operations return `Except`/pairs carrying the post-state.
-/

/-- Python `a or b` where `a` is an optional string and `b` a string:
`None` and the empty string are falsy, so they fall through to `b`. -/
def pyOrStr : Option String → String → String
  | none, b => b
  | some s, b => if s = "" then b else s

/-- Python `a or b` for two optional strings: `None` and `""` are falsy. -/
def pyOrOpt : Option String → Option String → Option String
  | none, b => b
  | some s, b => if s = "" then b else some s

/-- The `BoardMessage` pydantic model (`realtime.py`): client payload with an
action, a string-keyed payload map, a user, optional free-text message and an
optional correlation id.  The `user`-normalisation validator runs at
construction and does not affect any claim, so messages are quantified over as
already-constructed values. -/
structure BoardMessage where
  action : String
  payload : List (String × String)
  user : String := "anonymous"
  message : Option String := none
  correlation_id : Option String := none
  deriving DecidableEq, Repr

/-- The `ActivityEvent` pydantic model (`realtime.py`): event broadcast to
websocket and SSE observers. -/
structure ActivityEvent where
  id : String
  board : String
  action : String
  user : String
  payload : List (String × String)
  timestamp : Nat
  correlation_id : Option String := none
  kind : String := "board_event"
  active_connections : Nat := 0
  deriving DecidableEq, Repr

/-- Python `key in d` on a dict modelled as an association list. -/
def dictContains (d : List (String × String)) (k : String) : Bool :=
  d.any (fun p => p.1 == k)

/-- The `build_activity_event` function (`realtime.py`): creates a canonical
activity event from a client message.  `now` models `datetime.now(timezone.utc)`
and `fresh` the `str(uuid4())` drawn when `event_id` is falsy. -/
def build_activity_event (board_id : String) (message : BoardMessage)
    (event_id : Option String) (correlation_id : Option String)
    (now : Nat) (fresh : String) : ActivityEvent :=
  let payload0 := message.payload
  let payload :=
    match message.message with
    | some s =>
        if s ≠ "" ∧ dictContains payload0 "message" = false then
          payload0 ++ [("message", s)]
        else payload0
    | none => payload0
  { id := pyOrStr event_id fresh
    board := board_id
    action := message.action
    user := message.user
    payload := payload
    timestamp := now
    correlation_id := pyOrOpt correlation_id message.correlation_id
    kind := "board_event"
    active_connections := 0 }

/-- The `BoardEventEnvelope` pydantic model (`messaging.py`): canonical
transport envelope for board events. -/
structure BoardEventEnvelope where
  event_id : String
  board_id : String
  message : BoardMessage
  published_at : Nat
  correlation_id : String
  idempotency_key : String
  deriving DecidableEq, Repr

/-- The classmethod `BoardEventEnvelope.from_message` (`messaging.py`):
`correlation_id = message.correlation_id or str(uuid4())`, the message is
copied with that correlation id, and `event_id`/`published_at` take their
default factories (`freshEvent` models `str(uuid4())`, `now` the creation
instant). -/
def BoardEventEnvelope.from_message (board_id : String) (message : BoardMessage)
    (freshCorrelation freshEvent : String) (now : Nat) : BoardEventEnvelope :=
  let correlation_id := pyOrStr message.correlation_id freshCorrelation
  let message_copy := { message with correlation_id := some correlation_id }
  { event_id := freshEvent
    board_id := board_id
    message := message_copy
    published_at := now
    correlation_id := correlation_id
    idempotency_key := correlation_id }

/-- The call `BoardEventEnvelope.from_message(board_id, message)` together with
the caller's view of its `message` argument after the call returns.  The only
operation the source performs on `message` is `message.model_copy(update=...)`,
which builds a new object and leaves the receiver untouched, so the caller's
binding still denotes the original value. -/
def BoardEventEnvelope.from_message_run (board_id : String) (message : BoardMessage)
    (freshCorrelation freshEvent : String) (now : Nat) :
    BoardEventEnvelope × BoardMessage :=
  (BoardEventEnvelope.from_message board_id message freshCorrelation freshEvent now,
   message)

/-- The `ConnectionLimitExceeded` error (`realtime.py`): raised when the
websocket connection pool is exhausted. -/
inductive RealtimeError where
  | connectionLimitExceeded
  deriving DecidableEq, Repr

/-- State of the `RealtimeBroker` (`realtime.py`): a `defaultdict` mapping
board id to the set of live websocket handles (handles are opaque, modelled by
`Nat` identifiers; sets by duplicate-free insertion-ordered lists), plus the
list of SSE listener queues, each modelled by its current contents. -/
structure RealtimeBroker where
  boards : List (String × List Nat)
  activity_subscribers : List (List ActivityEvent)
  deriving DecidableEq, Repr

/-- Dict lookup `d.get(k)` on the boards mapping. -/
def getBoard : List (String × List Nat) → String → Option (List Nat)
  | [], _ => none
  | (b, cs) :: rest, k => if b = k then some cs else getBoard rest k

/-- Dict update `d[k] = v` for a key already present (replaces the entry in
place; dict keys are unique so only the first match matters). -/
def setBoard : List (String × List Nat) → String → List Nat → List (String × List Nat)
  | [], k, v => [(k, v)]
  | (b, cs) :: rest, k, v => if b = k then (b, v) :: rest else (b, cs) :: setBoard rest k v

/-- Dict removal `d.pop(k, None)`. -/
def removeBoard : List (String × List Nat) → String → List (String × List Nat)
  | [], _ => []
  | (b, cs) :: rest, k => if b = k then rest else (b, cs) :: removeBoard rest k

/-- Total of `len(connections)` over all boards, as computed under the lock in
`RealtimeBroker.connect` (`realtime.py`). -/
def totalConnections (s : RealtimeBroker) : Nat :=
  (s.boards.map (fun p => p.2.length)).sum

/-- The set of connections currently registered under a board
(`self._boards.get(board_id, set())`). -/
def boardConnections (s : RealtimeBroker) (b : String) : List Nat :=
  (getBoard s.boards b).getD []

/-- The mutation `self._boards[board_id].add(websocket)`: the `defaultdict`
creates an empty set on a missing key, and `set.add` inserts only when the
element is absent. -/
def addConnection (s : RealtimeBroker) (b : String) (ws : Nat) : RealtimeBroker :=
  match getBoard s.boards b with
  | none => { s with boards := s.boards ++ [(b, [ws])] }
  | some cs => { s with boards := setBoard s.boards b (if ws ∈ cs then cs else cs ++ [ws]) }

/-- The method `RealtimeBroker.connect` (`realtime.py`): under the lock, count
all live connections; at or above `settings.websocket_max_connections` raise
`ConnectionLimitExceeded` (before any mutation), otherwise register the
connection and return the board's new connection count.  The pair carries the
registry state after the call (unchanged when the error is raised). -/
def RealtimeBroker.connect (s : RealtimeBroker) (board_id : String) (ws : Nat)
    (max_connections : Nat) : Except RealtimeError Nat × RealtimeBroker :=
  if totalConnections s ≥ max_connections then
    (.error .connectionLimitExceeded, s)
  else
    let s' := addConnection s board_id ws
    (.ok (boardConnections s' board_id).length, s')

/-- The method `RealtimeBroker.disconnect` (`realtime.py`): discard the
connection from the board's set and pop the board entry once empty; a no-op
when the board is absent or its set is empty. -/
def RealtimeBroker.disconnect (s : RealtimeBroker) (board_id : String) (ws : Nat) :
    RealtimeBroker :=
  match getBoard s.boards board_id with
  | none => s
  | some cs =>
    if cs = [] then s
    else
      let cs' := cs.erase ws
      if cs' = [] then { s with boards := removeBoard s.boards board_id }
      else { s with boards := setBoard s.boards board_id cs' }

/-- Result of a `broadcast` call: the enriched copy of the event, the list of
successful `send_json` deliveries `(websocket, event)`, and the registry state
afterwards. -/
structure BroadcastResult where
  enriched : ActivityEvent
  sent : List (Nat × ActivityEvent)
  state : RealtimeBroker
  deriving DecidableEq, Repr

/-- The method `RealtimeBroker.broadcast` (`realtime.py`).  `wsConnected w`
models `w.application_state == WebSocketState.CONNECTED` at send time and
`sendOk w` whether `w.send_json` completes without `WebSocketDisconnect` /
`RuntimeError`.  A snapshot of the board's connections and of the listener
list is taken under the lock; the enriched copy (with `active_connections`
stamped to the snapshot's size) is sent to each connected peer; stale peers
are discarded from every board in a batched second pass; finally the enriched
event is pushed onto every snapshotted listener queue. -/
def RealtimeBroker.broadcast (s : RealtimeBroker) (event : ActivityEvent)
    (wsConnected sendOk : Nat → Bool) : BroadcastResult :=
  let connections := boardConnections s event.board
  let listeners := s.activity_subscribers
  let enriched := { event with active_connections := connections.length }
  let stale := connections.filter (fun w => !(wsConnected w && sendOk w))
  let sent := (connections.filter (fun w => wsConnected w && sendOk w)).map (fun w => (w, enriched))
  let boards' :=
    if stale = [] then s.boards
    else s.boards.map (fun p => (p.1, p.2.filter (fun w => !(stale.contains w))))
  { enriched := enriched
    sent := sent
    state := { boards := boards', activity_subscribers := listeners.map (fun q => q ++ [enriched]) } }

/-- Header values carried on broker messages (`worker.py`): the retry counter
is an int, diagnostics such as `last-error` are strings. -/
inductive HVal where
  | int (n : Int)
  | str (s : String)
  deriving DecidableEq, Repr

/-- AMQP message headers, an insertion-ordered string-keyed dict. -/
abbrev Headers := List (String × HVal)

/-- Dict lookup `headers.get(k)`. -/
def hget : Headers → String → Option HVal
  | [], _ => none
  | (k', v) :: rest, k => if k' = k then some v else hget rest k

/-- Dict assignment `headers[k] = v`: overwrite the existing entry in place,
append otherwise. -/
def hset : Headers → String → HVal → Headers
  | [], k, v => [(k, v)]
  | (k', v') :: rest, k, v =>
      if k' = k then (k', v) :: rest else (k', v') :: hset rest k v

/-- Python `int(raw)` on a header value, `None` on TypeError/ValueError; the
string case (`int` applied to a decimal string) is modelled by
`String.toInt?`. -/
def pyIntOf : HVal → Option Int
  | .int n => some n
  | .str s => s.toInt?

/-- The module function `_extract_retry_count` (`worker.py`): read the
`x-retry-count` header, defaulting to 0 when absent or unparseable. -/
def extract_retry_count (headers : Headers) : Int :=
  match hget headers "x-retry-count" with
  | none => 0
  | some v => (pyIntOf v).getD 0

/-- An inbound broker delivery as seen by `BoardEventConsumer._on_message`:
raw body bytes, headers, and the optional AMQP properties the worker reads. -/
structure IncomingMessage where
  body : List Nat
  headers : Headers
  content_type : Option String := none
  message_id : Option String := none
  deriving DecidableEq, Repr

/-- The three exchanges of the broker topology (`declare_rabbitmq_topology`,
`messaging.py`): primary, retry (TTL + dead-letter back to primary), and the
terminal dead-letter exchange. -/
inductive Exchange where
  | primary
  | retry
  | dlq
  deriving DecidableEq, Repr

/-- A message republished by the worker, together with the exchange it is
published to. -/
structure OutboundMessage where
  exchange : Exchange
  routing_key : String
  body : List Nat
  headers : Headers
  message_id : String
  content_type : String
  timestamp : Nat
  deriving DecidableEq, Repr

/-- The slice of `Settings` (`config.py`) the consumer paths read.
`redis_idempotency_base` models the setting `redis_idempotency_prefix` (the
namespace prepended to idempotency keys); the TTL only governs Redis expiry
and is elided from the store model. -/
structure WorkerSettings where
  rabbitmq_max_retries : Int
  rabbitmq_retry_routing_key : String
  rabbitmq_dlq_routing_key : String
  redis_idempotency_base : String
  deriving DecidableEq, Repr

/-- State of the Redis idempotency store within the TTL window: the set of
namespaced keys currently present. -/
structure RedisState where
  keys : List String
  deriving DecidableEq, Repr

/-- The method `RedisIdempotencyStore._key` (`messaging.py`). -/
def idempotencyKey (st : WorkerSettings) (k : String) : String :=
  st.redis_idempotency_base ++ ":" ++ k

/-- The method `RedisIdempotencyStore.is_processed` (`messaging.py`):
existence of the namespaced key. -/
def is_processed (r : RedisState) (st : WorkerSettings) (k : String) : Bool :=
  r.keys.contains (idempotencyKey st k)

/-- The method `RedisIdempotencyStore.mark_processed` (`messaging.py`):
`SET key "1" EX ttl`, i.e. ensure the namespaced key is present. -/
def mark_processed (r : RedisState) (st : WorkerSettings) (k : String) : RedisState :=
  if r.keys.contains (idempotencyKey st k) then r
  else { keys := r.keys ++ [idempotencyKey st k] }

/-- Observable steps taken by `_on_message` on one delivery, in order:
a Redis pub/sub publish attempt (with its outcome), a `mark_processed`
attempt (with its outcome), a republish to an exchange, and the final
acknowledgement of the original delivery. -/
inductive ConsumerAction where
  | publish (event : ActivityEvent) (ok : Bool)
  | mark (key : String) (ok : Bool)
  | toExchange (m : OutboundMessage)
  | ack
  deriving DecidableEq, Repr

/-- The method `BoardEventConsumer._send_to_retry` (`worker.py`): republish
the original body to the retry exchange with `x-retry-count` set to the new
attempt number and `last-error` to the exception text. -/
def send_to_retry (st : WorkerSettings) (msg : IncomingMessage)
    (envl : BoardEventEnvelope) (exc : String) (attempt : Int) (now : Nat) :
    OutboundMessage :=
  { exchange := .retry
    routing_key := st.rabbitmq_retry_routing_key
    body := msg.body
    headers := hset (hset msg.headers "x-retry-count" (.int attempt)) "last-error" (.str exc)
    message_id := envl.event_id
    content_type := "application/json"
    timestamp := now }

/-- The method `BoardEventConsumer._send_to_dlq` (`worker.py`): republish the
original body to the dead-letter exchange carrying the attempt count reached
and the last error. -/
def send_to_dlq (st : WorkerSettings) (msg : IncomingMessage)
    (envl : BoardEventEnvelope) (exc : String) (attempts : Int) (now : Nat) :
    OutboundMessage :=
  { exchange := .dlq
    routing_key := st.rabbitmq_dlq_routing_key
    body := msg.body
    headers := hset (hset msg.headers "x-retry-count" (.int attempts)) "last-error" (.str exc)
    message_id := envl.event_id
    content_type := "application/json"
    timestamp := now }

/-- The method `BoardEventConsumer._send_raw_to_dlq` (`worker.py`): forward an
undecodable delivery unchanged to the dead-letter exchange, tagged with a
`failure_reason` header and any extra diagnostic headers. -/
def send_raw_to_dlq (st : WorkerSettings) (msg : IncomingMessage)
    (reason : String) (extra : List (String × String)) (now : Nat) (fresh : String) :
    OutboundMessage :=
  { exchange := .dlq
    routing_key := st.rabbitmq_dlq_routing_key
    body := msg.body
    headers := extra.foldl (fun h p => hset h p.1 (.str p.2))
      (hset msg.headers "failure_reason" (.str reason))
    message_id := pyOrStr msg.message_id fresh
    content_type := pyOrStr msg.content_type "application/json"
    timestamp := now }

/-- The method `BoardEventConsumer._handle_failure` (`worker.py`): read the
retry count from the failed delivery's headers; at or above
`rabbitmq_max_retries` route to the DLQ with that count, otherwise to the
retry exchange with count + 1; in both cases acknowledge the original. -/
def handle_failure (st : WorkerSettings) (msg : IncomingMessage)
    (envl : BoardEventEnvelope) (exc : String) (now : Nat) : List ConsumerAction :=
  if extract_retry_count msg.headers ≥ st.rabbitmq_max_retries then
    [.toExchange (send_to_dlq st msg envl exc (extract_retry_count msg.headers) now), .ack]
  else
    [.toExchange (send_to_retry st msg envl exc (extract_retry_count msg.headers + 1) now), .ack]

/-- The republished message `_handle_failure` produces for a failed
delivery (the single `toExchange` element of `handle_failure`). -/
def failureRoute (st : WorkerSettings) (msg : IncomingMessage)
    (envl : BoardEventEnvelope) (exc : String) (now : Nat) : OutboundMessage :=
  if extract_retry_count msg.headers ≥ st.rabbitmq_max_retries then
    send_to_dlq st msg envl exc (extract_retry_count msg.headers) now
  else
    send_to_retry st msg envl exc (extract_retry_count msg.headers + 1) now

/-- Environment of one `_on_message` invocation: the envelope decoder
(`BoardEventEnvelope.model_validate_json` over utf-8 bytes, returning the
validation error text on failure), the outcomes of the Redis publish and
`mark_processed` calls, with the exception texts raised on failure, the
current instant and the uuid drawn on this invocation. -/
structure ConsumerEnv where
  decode : List Nat → Except String BoardEventEnvelope
  publishOk : Bool
  pubErr : String
  markOk : Bool
  markErr : String
  now : Nat
  fresh : String

/-- Result of `_on_message`: the ordered observable actions and the
idempotency-store state afterwards. -/
structure OnMessageResult where
  actions : List ConsumerAction
  store : RedisState
  deriving DecidableEq, Repr

/-- The method `BoardEventConsumer._on_message` (`worker.py`) for an
initialised consumer: decode failure forwards the raw body to the DLQ and
acks; a processed idempotency key acks and drops; otherwise the activity
event is built and published, `mark_processed` runs after a successful
publish, and any exception from that block routes through
`_handle_failure`. -/
def on_message (st : WorkerSettings) (env : ConsumerEnv) (store : RedisState)
    (msg : IncomingMessage) : OnMessageResult :=
  match env.decode msg.body with
  | .error e =>
      { actions := [.toExchange (send_raw_to_dlq st msg "invalid_payload"
            [("error", e)] env.now env.fresh), .ack]
        store := store }
  | .ok envl =>
      if is_processed store st envl.idempotency_key then
        { actions := [.ack], store := store }
      else
        let event := build_activity_event envl.board_id envl.message
          (some envl.event_id) (some envl.correlation_id) env.now env.fresh
        if env.publishOk then
          if env.markOk then
            { actions := [.publish event true, .mark envl.idempotency_key true, .ack]
              store := mark_processed store st envl.idempotency_key }
          else
            { actions := [.publish event true, .mark envl.idempotency_key false]
                ++ handle_failure st msg envl env.markErr env.now
              store := store }
        else
          { actions := [.publish event false]
              ++ handle_failure st msg envl env.pubErr env.now
            store := store }

/-- Helper for the mark-after-publish ordering property: scanning the action
list left to right, every `mark` action must be preceded by a successful
`publish` action (`seen` records whether one has been seen). -/
def marksAfterPublishAux : List ConsumerAction → Bool → Bool
  | [], _ => true
  | .publish _ ok :: rest, seen => marksAfterPublishAux rest (seen || ok)
  | .mark _ _ :: rest, seen => seen && marksAfterPublishAux rest seen
  | .toExchange _ :: rest, seen => marksAfterPublishAux rest seen
  | .ack :: rest, seen => marksAfterPublishAux rest seen

/-- Every `mark` in the trace occurs strictly after a successful publish. -/
def marksOnlyAfterSuccessfulPublish (l : List ConsumerAction) : Bool :=
  marksAfterPublishAux l false

/-- Broker TTL+DLX redelivery of a retry-exchange message back into the
primary queue: body and application headers are preserved (the broker's own
`x-death` bookkeeping is elided — it never touches `x-retry-count`). -/
def redeliver (m : OutboundMessage) : IncomingMessage :=
  { body := m.body
    headers := m.headers
    content_type := some m.content_type
    message_id := some m.message_id }

/-- The in-flight delivery after `n` consecutive fan-out failures, each routed
by `_handle_failure` and redelivered by the broker. -/
def iterateFailures (st : WorkerSettings) (envl : BoardEventEnvelope)
    (exc : String) (now : Nat) : Nat → IncomingMessage → IncomingMessage
  | 0, msg => msg
  | n + 1, msg => redeliver (failureRoute st (iterateFailures st envl exc now n msg) envl exc now)

/-- The transport mode switch `Settings.event_transport` (`config.py`). -/
inductive TransportMode where
  | rabbitmq
  | memory
  deriving DecidableEq, Repr

/-- Which publisher implementation an `EventPipeline` holds
(`InMemoryEventPublisher` or `RabbitMQEventPublisher`, `messaging.py`). -/
inductive PublisherImpl where
  | inMemory
  | rabbit
  deriving DecidableEq, Repr

/-- Errors surfaced by the pipeline: the "not started" `RuntimeError` of
`publish`, and the propagated publisher-startup failure of `start`. -/
inductive PipelineError where
  | notStarted
  | publisherStartFailed
  deriving DecidableEq, Repr

/-- State of an `EventPipeline` (`messaging.py`): the active publisher, if
any, and whether a `RedisActivitySubscriber` is held. -/
structure PipelineState where
  publisher : Option PublisherImpl := none
  subscriber : Bool := false
  deriving DecidableEq, Repr

/-- The method `EventPipeline.start` (`messaging.py`): in memory mode install
the in-memory publisher; in durable mode start the subscriber first, then the
RabbitMQ publisher — if the publisher's `start()` raises
(`publisherStartOk = false`), stop and clear the subscriber and re-raise.
The pair is the raised error (if any) and the pipeline state after the
call. -/
def pipelineStart (mode : TransportMode) (publisherStartOk : Bool)
    (s : PipelineState) : Option PipelineError × PipelineState :=
  match mode with
  | .memory => (none, { s with publisher := some .inMemory })
  | .rabbitmq =>
      let s1 := { s with subscriber := true }
      if publisherStartOk then (none, { s1 with publisher := some .rabbit })
      else (some .publisherStartFailed, { s1 with subscriber := false })

/-- The method `EventPipeline.publish` (`messaging.py`): raise the
"not started" error when no publisher is active, otherwise delegate to the
active publisher. -/
def pipelinePublish (s : PipelineState) : Except PipelineError PublisherImpl :=
  match s.publisher with
  | none => .error .notStarted
  | some p => .ok p

/-- The close code `UNAUTHORIZED_CLOSE_CODE` (`auth.py`). -/
def UNAUTHORIZED_CLOSE_CODE : Nat := 4401

/-- The credentials attached to an incoming request or websocket connect
attempt: the `token` query parameter and the (case-insensitively looked-up)
Authorization header. -/
structure RequestAuthData where
  query_token : Option String := none
  authorization : Option String := none
  deriving DecidableEq, Repr

/-- Python `s.partition(" ")` without the separator component: the text
before the first space, and everything after it. -/
def pyPartitionSpace (s : String) : String × String :=
  match s.splitOn " " with
  | [] => (s, "")
  | [x] => (x, "")
  | x :: rest => (x, String.intercalate " " rest)

/-- The helper `_extract_authorization_token` (`auth.py`): pull a bearer token
out of the Authorization header; `None` when the header is falsy, the scheme
is not `bearer`, or no token follows the scheme. -/
def extract_authorization_token (auth : Option String) : Option String :=
  match auth with
  | none => none
  | some a =>
      if a = "" then none
      else
        let p := pyPartitionSpace a
        if p.1.toLower ≠ "bearer" ∨ p.2 = "" then none
        else some p.2.trim

/-- The token lookup both auth functions perform first (`auth.py`): the
`token` query parameter if truthy, else the bearer token of the Authorization
header. -/
def lookupToken (q : RequestAuthData) : Option String :=
  match q.query_token with
  | some s => if s = "" then extract_authorization_token q.authorization else some s
  | none => extract_authorization_token q.authorization

/-- Outcome of `authenticate_websocket` (`auth.py`): either the socket is
closed with a close code (and `RealtimeAuthenticationError` raised), or the
connection is authenticated with the validated token. -/
inductive WsAuthResult where
  | closed (code : Nat)
  | authenticated (token : String)
  deriving DecidableEq, Repr

/-- The coroutine `authenticate_websocket` (`auth.py`): close with
`UNAUTHORIZED_CLOSE_CODE` and raise unless a truthy token was supplied that
equals `settings.realtime_token`. -/
def authenticate_websocket (q : RequestAuthData) (realtime_token : String) :
    WsAuthResult :=
  match lookupToken q with
  | none => .closed UNAUTHORIZED_CLOSE_CODE
  | some t =>
      if t = "" ∨ t ≠ realtime_token then .closed UNAUTHORIZED_CLOSE_CODE
      else .authenticated t

/-- The HTTP 401 error raised by `require_http_token` (`auth.py`). -/
inductive HttpAuthError where
  | unauthorized401
  deriving DecidableEq, Repr

/-- The function `require_http_token` (`auth.py`), used by the SSE endpoint:
same token lookup and check, raising HTTP 401 on failure. -/
def require_http_token (q : RequestAuthData) (realtime_token : String) :
    Except HttpAuthError String :=
  match lookupToken q with
  | none => .error .unauthorized401
  | some t =>
      if t = "" ∨ t ≠ realtime_token then .error .unauthorized401
      else .ok t

/-- Collapse an empty string to absence. -/
def collapseEmpty : Option String → Option String
  | none => none
  | some s => if s = "" then none else some s

/-- The token a request supplies, in the sense of the specification: the
query parameter if present and non-empty, else the bearer token of the
Authorization header; an empty token counts as absent. -/
def suppliedToken (q : RequestAuthData) : Option String :=
  collapseEmpty (lookupToken q)

/-- C5: for every BoardMessage `m` and board id `b`, the envelope
`e = BoardEventEnvelope.from_message(b, m)` satisfies
`e.message.correlation_id == e.correlation_id` and
`e.idempotency_key == e.correlation_id`; `e.correlation_id` equals
`m.correlation_id` whenever that is a non-empty value, and is the freshly
generated identifier otherwise. -/
theorem C5_from_message_correlation (b : String) (m : BoardMessage)
    (fc fe : String) (now : Nat) :
    (BoardEventEnvelope.from_message b m fc fe now).message.correlation_id
        = some (BoardEventEnvelope.from_message b m fc fe now).correlation_id ∧
    (BoardEventEnvelope.from_message b m fc fe now).idempotency_key
        = (BoardEventEnvelope.from_message b m fc fe now).correlation_id ∧
    (∀ s : String, m.correlation_id = some s → s ≠ "" →
        (BoardEventEnvelope.from_message b m fc fe now).correlation_id = s) ∧
    ((m.correlation_id = none ∨ m.correlation_id = some "") →
        (BoardEventEnvelope.from_message b m fc fe now).correlation_id = fc) := by
  refine ⟨rfl, rfl, ?_, ?_⟩
  · intro s hs hne
    simp [BoardEventEnvelope.from_message, pyOrStr, hs, hne]
  · rintro (h | h) <;> simp [BoardEventEnvelope.from_message, pyOrStr, h]

/-- Witness for C5 at a concrete message carrying correlation id `corr-1`. -/
theorem C5_from_message_correlation_witness :
    (BoardEventEnvelope.from_message "board-123"
        { action := "card.added", payload := [], user := "anonymous",
          message := none, correlation_id := some "corr-1" }
        "fresh-c" "fresh-e" 0).correlation_id = "corr-1" ∧
    (BoardEventEnvelope.from_message "board-123"
        { action := "card.added", payload := [], user := "anonymous",
          message := none, correlation_id := some "corr-1" }
        "fresh-c" "fresh-e" 0).idempotency_key
      = (BoardEventEnvelope.from_message "board-123"
        { action := "card.added", payload := [], user := "anonymous",
          message := none, correlation_id := some "corr-1" }
        "fresh-c" "fresh-e" 0).correlation_id := by
  refine ⟨?_, ?_⟩
  · exact (C5_from_message_correlation "board-123"
      { action := "card.added", payload := [], user := "anonymous",
        message := none, correlation_id := some "corr-1" }
      "fresh-c" "fresh-e" 0).2.2.1 "corr-1" rfl (by decide)
  · exact (C5_from_message_correlation "board-123"
      { action := "card.added", payload := [], user := "anonymous",
        message := none, correlation_id := some "corr-1" }
      "fresh-c" "fresh-e" 0).2.1

/-- C10: `from_message` never mutates its `BoardMessage` argument: the caller's
message is unchanged after the call (in particular a `None` correlation id
stays `None`), while the envelope carries a distinct copy of the message with
the correlation id filled in. -/
theorem C10_from_message_no_mutation (b : String) (m : BoardMessage)
    (fc fe : String) (now : Nat) :
    (BoardEventEnvelope.from_message_run b m fc fe now).2 = m ∧
    (m.correlation_id = none →
        (BoardEventEnvelope.from_message_run b m fc fe now).2.correlation_id = none) ∧
    (BoardEventEnvelope.from_message_run b m fc fe now).1.message
        = { m with correlation_id := some (pyOrStr m.correlation_id fc) } ∧
    (m.correlation_id = none →
        (BoardEventEnvelope.from_message_run b m fc fe now).1.message ≠ m) := by
  refine ⟨rfl, fun h => h, rfl, ?_⟩
  intro h hEq
  have := congrArg BoardMessage.correlation_id hEq
  simp [BoardEventEnvelope.from_message_run, BoardEventEnvelope.from_message, h] at this

/-- Witness for C10 at a concrete message with no correlation id. -/
theorem C10_from_message_no_mutation_witness :
    (BoardEventEnvelope.from_message_run "board-123"
        { action := "card.moved", payload := [("column", "doing")] }
        "fresh-c" "fresh-e" 7).2
      = { action := "card.moved", payload := [("column", "doing")] } ∧
    (BoardEventEnvelope.from_message_run "board-123"
        { action := "card.moved", payload := [("column", "doing")] }
        "fresh-c" "fresh-e" 7).2.correlation_id = none ∧
    (BoardEventEnvelope.from_message_run "board-123"
        { action := "card.moved", payload := [("column", "doing")] }
        "fresh-c" "fresh-e" 7).1.message
      ≠ { action := "card.moved", payload := [("column", "doing")] } := by
  have h := C10_from_message_no_mutation "board-123"
    { action := "card.moved", payload := [("column", "doing")] } "fresh-c" "fresh-e" 7
  exact ⟨h.1, h.2.1 rfl, h.2.2.2 rfl⟩

/-- A board entry found by `getBoard` accounts for its length inside the
total, both before and after replacing or removing it. -/
theorem getBoard_total_eq (l : List (String × List Nat)) (b : String) (cs : List Nat)
    (h : getBoard l b = some cs) :
    (l.map (fun p => p.2.length)).sum
        = cs.length + ((removeBoard l b).map (fun p => p.2.length)).sum ∧
    ∀ v : List Nat, ((setBoard l b v).map (fun p => p.2.length)).sum
        = v.length + ((removeBoard l b).map (fun p => p.2.length)).sum := by
  induction l with
  | nil => simp [getBoard] at h
  | cons hd tl ih =>
    obtain ⟨b₀, cs₀⟩ := hd
    by_cases hb : b₀ = b
    · simp [getBoard, hb] at h
      subst h
      simp [removeBoard, setBoard, hb]
    · simp [getBoard, hb] at h
      obtain ⟨h1, h2⟩ := ih h
      constructor
      · simp [removeBoard, hb, h1]
        omega
      · intro v
        simp [removeBoard, setBoard, hb, h1, h2 v]
        omega

/-- Disconnecting a connection that is registered under a board decreases the
global live-connection count by exactly one. -/
theorem disconnect_total (s : RealtimeBroker) (b : String) (c : Nat)
    (h : c ∈ boardConnections s b) :
    totalConnections (s.disconnect b c) + 1 = totalConnections s := by
  unfold boardConnections at h
  cases hg : getBoard s.boards b with
  | none => rw [hg] at h; simp at h
  | some cs =>
    rw [hg] at h
    simp only [Option.getD_some] at h
    have hne : cs ≠ [] := by rintro rfl; simp at h
    have hlen : (cs.erase c).length = cs.length - 1 := List.length_erase_of_mem h
    have hpos : 1 ≤ cs.length := List.length_pos.mpr (by rintro rfl; simp at h)
    obtain ⟨htot, hset⟩ := getBoard_total_eq s.boards b cs hg
    unfold RealtimeBroker.disconnect
    rw [hg]
    by_cases he : cs.erase c = []
    · have h1 : cs.length = 1 := by
        have := hlen
        rw [he] at this
        simp at this
        omega
      simp [hne, he, totalConnections]
      omega
    · simp [hne, he, totalConnections, hset (cs.erase c), hlen]
      omega

/-- C4: connect raises `ConnectionLimitExceeded` exactly when the global
connection count is already at least the maximum, leaving the registry
unchanged; below the cap it registers the connection and returns the board's
new set size; and at the cap, after any one disconnect of a registered
connection a further connect succeeds again. -/
theorem C4_connect_limit_enforcement (s : RealtimeBroker) (b : String) (c : Nat)
    (maxConn : Nat) :
    (totalConnections s ≥ maxConn →
        s.connect b c maxConn = (.error .connectionLimitExceeded, s)) ∧
    (totalConnections s < maxConn →
        s.connect b c maxConn
          = (.ok (boardConnections (addConnection s b c) b).length, addConnection s b c)) ∧
    (totalConnections s = maxConn → ∀ b' c', c' ∈ boardConnections s b' →
        (s.disconnect b' c').connect b c maxConn
          = (.ok (boardConnections (addConnection (s.disconnect b' c') b c) b).length,
              addConnection (s.disconnect b' c') b c)) := by
  refine ⟨?_, ?_, ?_⟩
  · intro h
    simp [RealtimeBroker.connect, h]
  · intro h
    simp [RealtimeBroker.connect, Nat.not_le.mpr h]
  · intro hEq b' c' hMem
    have hd := disconnect_total s b' c' hMem
    have hlt : totalConnections (s.disconnect b' c') < maxConn := by omega
    simp [RealtimeBroker.connect, Nat.not_le.mpr hlt]

/-- Witness for C4: one board at a cap of 1; a further connect fails and
leaves the registry unchanged, and after disconnecting the registered
connection a connect succeeds with per-board count 1. -/
theorem C4_connect_limit_enforcement_witness :
    RealtimeBroker.connect
        { boards := [("board-1", [5])], activity_subscribers := [] } "board-2" 9 1
      = (.error .connectionLimitExceeded,
         { boards := [("board-1", [5])], activity_subscribers := [] }) ∧
    (RealtimeBroker.disconnect
        { boards := [("board-1", [5])], activity_subscribers := [] } "board-1" 5).connect
        "board-2" 9 1
      = (.ok 1,
         addConnection (RealtimeBroker.disconnect
            { boards := [("board-1", [5])], activity_subscribers := [] } "board-1" 5)
            "board-2" 9) := by
  have h := C4_connect_limit_enforcement
    { boards := [("board-1", [5])], activity_subscribers := [] } "board-2" 9 1
  refine ⟨h.1 (by decide), ?_⟩
  have h2 := h.2.2 (by decide) "board-1" 5 (by decide)
  simpa using h2

/-- C6 (amended): `broadcast` stamps the snapshot size of the board's
registered connection set onto a copy of the event, leaving every other field
of the copy equal to the original's; that same copy is delivered to every
registered connection on `event.board` that is in the `CONNECTED` state and
whose send succeeds, every delivered event is that copy, and the copy is
pushed onto every registered SSE listener queue. -/
theorem C6_broadcast_copy_and_fanout (s : RealtimeBroker) (event : ActivityEvent)
    (wsConnected sendOk : Nat → Bool) :
    (s.broadcast event wsConnected sendOk).enriched
        = { event with active_connections := (boardConnections s event.board).length } ∧
    (∀ w, w ∈ boardConnections s event.board → wsConnected w = true → sendOk w = true →
        (w, (s.broadcast event wsConnected sendOk).enriched)
          ∈ (s.broadcast event wsConnected sendOk).sent) ∧
    (∀ p, p ∈ (s.broadcast event wsConnected sendOk).sent →
        p.2 = (s.broadcast event wsConnected sendOk).enriched) ∧
    (s.broadcast event wsConnected sendOk).state.activity_subscribers
        = s.activity_subscribers.map
            (fun q => q ++ [(s.broadcast event wsConnected sendOk).enriched]) := by
  refine ⟨rfl, ?_, ?_, rfl⟩
  · intro w hw hc hs
    simp only [RealtimeBroker.broadcast, List.mem_map, List.mem_filter]
    exact ⟨w, ⟨hw, by simp [hc, hs]⟩, rfl⟩
  · intro p hp
    simp only [RealtimeBroker.broadcast, List.mem_map, List.mem_filter] at hp
    obtain ⟨w, _, rfl⟩ := hp
    rfl

/-- Witness for C6: with exactly two connected peers on the board, both
receive the enriched copy and it carries `active_connections == 2`. -/
theorem C6_broadcast_copy_and_fanout_witness :
    (1, (RealtimeBroker.broadcast
          { boards := [("board-1", [1, 2])], activity_subscribers := [] }
          { id := "e", board := "board-1", action := "a", user := "u",
            payload := [], timestamp := 0 }
          (fun _ => true) (fun _ => true)).enriched)
      ∈ (RealtimeBroker.broadcast
          { boards := [("board-1", [1, 2])], activity_subscribers := [] }
          { id := "e", board := "board-1", action := "a", user := "u",
            payload := [], timestamp := 0 }
          (fun _ => true) (fun _ => true)).sent ∧
    (2, (RealtimeBroker.broadcast
          { boards := [("board-1", [1, 2])], activity_subscribers := [] }
          { id := "e", board := "board-1", action := "a", user := "u",
            payload := [], timestamp := 0 }
          (fun _ => true) (fun _ => true)).enriched)
      ∈ (RealtimeBroker.broadcast
          { boards := [("board-1", [1, 2])], activity_subscribers := [] }
          { id := "e", board := "board-1", action := "a", user := "u",
            payload := [], timestamp := 0 }
          (fun _ => true) (fun _ => true)).sent ∧
    (RealtimeBroker.broadcast
          { boards := [("board-1", [1, 2])], activity_subscribers := [] }
          { id := "e", board := "board-1", action := "a", user := "u",
            payload := [], timestamp := 0 }
          (fun _ => true) (fun _ => true)).enriched.active_connections = 2 := by
  have h := C6_broadcast_copy_and_fanout
    { boards := [("board-1", [1, 2])], activity_subscribers := [] }
    { id := "e", board := "board-1", action := "a", user := "u",
      payload := [], timestamp := 0 }
    (fun _ => true) (fun _ => true)
  refine ⟨h.2.1 1 (by decide) rfl rfl, h.2.1 2 (by decide) rfl rfl, ?_⟩
  rw [h.1]
  decide

/-- Counterexample for C6 as stated: a connection that is registered on the
board but not in the `CONNECTED` state receives nothing — the delivery list is
empty even though the connection is registered. -/
theorem C6_broadcast_counterexample :
    0 ∈ boardConnections
        { boards := [("board-1", [0])], activity_subscribers := [] } "board-1" ∧
    (RealtimeBroker.broadcast
        { boards := [("board-1", [0])], activity_subscribers := [] }
        { id := "e", board := "board-1", action := "a", user := "u",
          payload := [], timestamp := 0 }
        (fun _ => false) (fun _ => true)).sent = [] := by
  constructor
  · decide
  · rfl

/-- Looking up the key just assigned yields the assigned value. -/
theorem hget_hset_self (h : Headers) (k : String) (v : HVal) :
    hget (hset h k v) k = some v := by
  induction h with
  | nil => simp [hget, hset]
  | cons hd tl ih =>
    obtain ⟨k', v'⟩ := hd
    by_cases hk : k' = k
    · simp [hget, hset, hk]
    · simp [hget, hset, hk, ih]

/-- Assigning one key leaves lookups of a different key unchanged. -/
theorem hget_hset_ne (h : Headers) (k k' : String) (v : HVal) (hne : k' ≠ k) :
    hget (hset h k' v) k = hget h k := by
  induction h with
  | nil => simp [hget, hset, hne]
  | cons hd tl ih =>
    obtain ⟨k₀, v₀⟩ := hd
    by_cases h0 : k₀ = k'
    · subst h0
      simp [hget, hset, hne]
    · by_cases h1 : k₀ = k
      · subst h1
        simp [hget, hset, h0]
      · simp [hget, hset, h0, h1, ih]

/-- A retry republish carries the given attempt count in `x-retry-count`. -/
theorem hget_send_to_retry_count (st : WorkerSettings) (msg : IncomingMessage)
    (envl : BoardEventEnvelope) (exc : String) (a : Int) (now : Nat) :
    hget (send_to_retry st msg envl exc a now).headers "x-retry-count"
      = some (.int a) := by
  unfold send_to_retry
  rw [hget_hset_ne _ _ _ _ (by decide), hget_hset_self]

/-- A retry republish carries the exception text in `last-error`. -/
theorem hget_send_to_retry_lasterror (st : WorkerSettings) (msg : IncomingMessage)
    (envl : BoardEventEnvelope) (exc : String) (a : Int) (now : Nat) :
    hget (send_to_retry st msg envl exc a now).headers "last-error"
      = some (.str exc) := by
  unfold send_to_retry
  rw [hget_hset_self]

/-- A DLQ republish carries the given attempt count in `x-retry-count`. -/
theorem hget_send_to_dlq_count (st : WorkerSettings) (msg : IncomingMessage)
    (envl : BoardEventEnvelope) (exc : String) (a : Int) (now : Nat) :
    hget (send_to_dlq st msg envl exc a now).headers "x-retry-count"
      = some (.int a) := by
  unfold send_to_dlq
  rw [hget_hset_ne _ _ _ _ (by decide), hget_hset_self]

/-- Reading the retry counter back from a headers dict that carries it as an
int yields that int. -/
theorem extract_of_hget (h : Headers) (a : Int)
    (hh : hget h "x-retry-count" = some (.int a)) :
    extract_retry_count h = a := by
  unfold extract_retry_count
  rw [hh]
  rfl

/-- The actions of `_handle_failure` never include a `mark`. -/
theorem mark_not_mem_handle_failure (st : WorkerSettings) (msg : IncomingMessage)
    (envl : BoardEventEnvelope) (exc : String) (now : Nat) (k : String) (ok : Bool) :
    ConsumerAction.mark k ok ∉ handle_failure st msg envl exc now := by
  unfold handle_failure
  split <;> simp

/-- The mark-ordering scan accepts the actions of `_handle_failure` from any
starting state. -/
theorem marksAux_handle_failure (st : WorkerSettings) (msg : IncomingMessage)
    (envl : BoardEventEnvelope) (exc : String) (now : Nat) (seen : Bool) :
    marksAfterPublishAux (handle_failure st msg envl exc now) seen = true := by
  unfold handle_failure
  split <;> rfl

/-- C3: a broker message whose body fails to decode as a BoardEventEnvelope is
forwarded to the dead-letter exchange with its body unchanged and a
`failure_reason` header set, then the original is acknowledged; no republish
of such a message ever targets the retry or primary exchange, and the
idempotency store is untouched. -/
theorem C3_decode_failure_raw_to_dlq (st : WorkerSettings) (env : ConsumerEnv)
    (store : RedisState) (msg : IncomingMessage) (e : String)
    (h : env.decode msg.body = .error e) :
    on_message st env store msg =
      { actions := [.toExchange (send_raw_to_dlq st msg "invalid_payload"
            [("error", e)] env.now env.fresh), .ack]
        store := store } ∧
    (send_raw_to_dlq st msg "invalid_payload" [("error", e)] env.now env.fresh).exchange
        = .dlq ∧
    (send_raw_to_dlq st msg "invalid_payload" [("error", e)] env.now env.fresh).body
        = msg.body ∧
    hget (send_raw_to_dlq st msg "invalid_payload" [("error", e)] env.now env.fresh).headers
        "failure_reason" = some (.str "invalid_payload") ∧
    (∀ m : OutboundMessage, ConsumerAction.toExchange m ∈ (on_message st env store msg).actions →
        m.exchange = .dlq) := by
  refine ⟨?_, rfl, rfl, ?_, ?_⟩
  · simp only [on_message, h]
  · unfold send_raw_to_dlq
    simp only [List.foldl]
    rw [hget_hset_ne _ _ _ _ (by decide), hget_hset_self]
  · intro m hm
    simp only [on_message, h, List.mem_cons, List.not_mem_nil, or_false] at hm
    rcases hm with hm | hm
    · cases hm
      rfl
    · cases hm

/-- Witness for C3 at a delivery whose decoder rejects the body. -/
theorem C3_decode_failure_raw_to_dlq_witness :
    on_message
        { rabbitmq_max_retries := 5, rabbitmq_retry_routing_key := "boards.activity.retry",
          rabbitmq_dlq_routing_key := "boards.activity.dlq",
          redis_idempotency_base := "advanced:idempotency" }
        { decode := fun _ => .error "bad json", publishOk := true, pubErr := "",
          markOk := true, markErr := "", now := 3, fresh := "uuid-1" }
        { keys := [] }
        { body := [255], headers := [] }
      = { actions := [.toExchange (send_raw_to_dlq
            { rabbitmq_max_retries := 5, rabbitmq_retry_routing_key := "boards.activity.retry",
              rabbitmq_dlq_routing_key := "boards.activity.dlq",
              redis_idempotency_base := "advanced:idempotency" }
            { body := [255], headers := [] } "invalid_payload" [("error", "bad json")] 3 "uuid-1"),
            .ack]
          store := { keys := [] } } ∧
    (send_raw_to_dlq
        { rabbitmq_max_retries := 5, rabbitmq_retry_routing_key := "boards.activity.retry",
          rabbitmq_dlq_routing_key := "boards.activity.dlq",
          redis_idempotency_base := "advanced:idempotency" }
        { body := [255], headers := [] } "invalid_payload" [("error", "bad json")] 3 "uuid-1").exchange
      = .dlq := by
  have h := C3_decode_failure_raw_to_dlq
    { rabbitmq_max_retries := 5, rabbitmq_retry_routing_key := "boards.activity.retry",
      rabbitmq_dlq_routing_key := "boards.activity.dlq",
      redis_idempotency_base := "advanced:idempotency" }
    { decode := fun _ => .error "bad json", publishOk := true, pubErr := "",
      markOk := true, markErr := "", now := 3, fresh := "uuid-1" }
    { keys := [] } { body := [255], headers := [] } "bad json" rfl
  exact ⟨h.1, h.2.1⟩

/-- C2: a decodable message whose idempotency key is already marked processed
is acknowledged and dropped without any publish and without modifying the
store; and in every execution of `_on_message`, `mark_processed` is attempted
only after the pub/sub publish has succeeded — never before it and never when
the publish failed. -/
theorem C2_idempotency_and_mark_order (st : WorkerSettings) (env : ConsumerEnv)
    (store : RedisState) (msg : IncomingMessage) :
    (∀ envl : BoardEventEnvelope, env.decode msg.body = .ok envl →
        is_processed store st envl.idempotency_key = true →
        on_message st env store msg = { actions := [.ack], store := store }) ∧
    marksOnlyAfterSuccessfulPublish (on_message st env store msg).actions = true ∧
    (env.publishOk = false → ∀ k ok,
        ConsumerAction.mark k ok ∉ (on_message st env store msg).actions) := by
  refine ⟨?_, ?_, ?_⟩
  · intro envl hdec hproc
    simp [on_message, hdec, hproc]
  · unfold marksOnlyAfterSuccessfulPublish on_message
    cases hdec : env.decode msg.body with
    | error e => simp [marksAfterPublishAux]
    | ok envl =>
      cases hproc : is_processed store st envl.idempotency_key <;>
        cases hpub : env.publishOk <;>
          cases hmark : env.markOk <;>
            simp [hproc, hpub, hmark, marksAfterPublishAux, marksAux_handle_failure]
  · intro hpub k ok
    unfold on_message
    cases hdec : env.decode msg.body with
    | error e => simp
    | ok envl =>
      cases hproc : is_processed store st envl.idempotency_key <;>
        simp [hproc, hpub, mark_not_mem_handle_failure]

/-- Witness for C2: a delivery whose key is already marked is acked and
dropped with the store unchanged. -/
theorem C2_idempotency_and_mark_order_witness :
    on_message
        { rabbitmq_max_retries := 5, rabbitmq_retry_routing_key := "boards.activity.retry",
          rabbitmq_dlq_routing_key := "boards.activity.dlq",
          redis_idempotency_base := "advanced:idempotency" }
        { decode := fun _ => .ok
            { event_id := "evt-1", board_id := "board-123",
              message := { action := "card.moved", payload := [("column", "doing")] },
              published_at := 0, correlation_id := "corr-1", idempotency_key := "corr-1" },
          publishOk := true, pubErr := "", markOk := true, markErr := "",
          now := 0, fresh := "uuid-2" }
        { keys := ["advanced:idempotency:corr-1"] }
        { body := [123], headers := [] }
      = { actions := [.ack], store := { keys := ["advanced:idempotency:corr-1"] } } := by
  exact (C2_idempotency_and_mark_order
    { rabbitmq_max_retries := 5, rabbitmq_retry_routing_key := "boards.activity.retry",
      rabbitmq_dlq_routing_key := "boards.activity.dlq",
      redis_idempotency_base := "advanced:idempotency" }
    { decode := fun _ => .ok
        { event_id := "evt-1", board_id := "board-123",
          message := { action := "card.moved", payload := [("column", "doing")] },
          published_at := 0, correlation_id := "corr-1", idempotency_key := "corr-1" },
      publishOk := true, pubErr := "", markOk := true, markErr := "",
      now := 0, fresh := "uuid-2" }
    { keys := ["advanced:idempotency:corr-1"] }
    { body := [123], headers := [] }).1
    { event_id := "evt-1", board_id := "board-123",
      message := { action := "card.moved", payload := [("column", "doing")] },
      published_at := 0, correlation_id := "corr-1", idempotency_key := "corr-1" }
    rfl (by decide)

/-- Starting from a delivery with no `x-retry-count` header, after `n ≤ M`
failures (each routed to the retry exchange and redelivered by the broker)
the in-flight delivery carries retry count `n` and the original body. -/
theorem iterateFailures_spec (st : WorkerSettings) (envl : BoardEventEnvelope)
    (exc : String) (now : Nat) (M : Nat) (hM : st.rabbitmq_max_retries = (M : Int))
    (msg : IncomingMessage) (h0 : hget msg.headers "x-retry-count" = none)
    (n : Nat) (hn : n ≤ M) :
    extract_retry_count (iterateFailures st envl exc now n msg).headers = (n : Int) ∧
    (iterateFailures st envl exc now n msg).body = msg.body := by
  induction n with
  | zero =>
      refine ⟨?_, rfl⟩
      simp [iterateFailures, extract_retry_count, h0]
  | succ k ih =>
      obtain ⟨hcount, hbody⟩ := ih (by omega)
      have hlt : ¬ extract_retry_count (iterateFailures st envl exc now k msg).headers
          ≥ st.rabbitmq_max_retries := by
        rw [hcount, hM]
        simp only [ge_iff_le, not_le]
        exact_mod_cast Nat.lt_of_lt_of_le (Nat.lt_succ_self k) hn
      constructor
      · simp only [iterateFailures, failureRoute, if_neg hlt]
        have h1 := extract_of_hget _ _ (hget_send_to_retry_count st
          (iterateFailures st envl exc now k msg) envl exc
          (extract_retry_count (iterateFailures st envl exc now k msg).headers + 1) now)
        simp only [redeliver] at h1 ⊢
        rw [h1, hcount]
        push_cast
        ring
      · simp only [iterateFailures, failureRoute, if_neg hlt, redeliver, send_to_retry]
        exact hbody

/-- C1: on fan-out failure the consumer reads `x-retry-count` (absent as 0);
strictly below `rabbitmq_max_retries` it republishes the body to the retry
exchange with the count incremented and `last-error` set, then acks; at or
above the maximum it republishes to the dead-letter exchange with the count
reached, then acks; consequently a fresh message that keeps failing reaches
the DLQ on its `(max_retries + 1)`-st failure carrying
`x-retry-count == max_retries`, and a failed message is never republished to
the primary exchange. -/
theorem C1_retry_dlq_escalation (st : WorkerSettings) (msg : IncomingMessage)
    (envl : BoardEventEnvelope) (exc : String) (now : Nat) (M : Nat)
    (hM : st.rabbitmq_max_retries = (M : Int))
    (h0 : hget msg.headers "x-retry-count" = none) :
    (∀ m : IncomingMessage,
        handle_failure st m envl exc now
          = [.toExchange (failureRoute st m envl exc now), .ack]) ∧
    (∀ m : IncomingMessage, extract_retry_count m.headers < st.rabbitmq_max_retries →
        failureRoute st m envl exc now
            = send_to_retry st m envl exc (extract_retry_count m.headers + 1) now ∧
        (failureRoute st m envl exc now).exchange = .retry ∧
        hget (failureRoute st m envl exc now).headers "x-retry-count"
            = some (.int (extract_retry_count m.headers + 1)) ∧
        hget (failureRoute st m envl exc now).headers "last-error" = some (.str exc)) ∧
    (∀ m : IncomingMessage, extract_retry_count m.headers ≥ st.rabbitmq_max_retries →
        failureRoute st m envl exc now
            = send_to_dlq st m envl exc (extract_retry_count m.headers) now ∧
        (failureRoute st m envl exc now).exchange = .dlq ∧
        hget (failureRoute st m envl exc now).headers "x-retry-count"
            = some (.int (extract_retry_count m.headers))) ∧
    (∀ n : Nat, n < M →
        (failureRoute st (iterateFailures st envl exc now n msg) envl exc now).exchange
          = .retry) ∧
    ((failureRoute st (iterateFailures st envl exc now M msg) envl exc now).exchange
          = .dlq ∧
     hget (failureRoute st (iterateFailures st envl exc now M msg) envl exc now).headers
          "x-retry-count" = some (.int (M : Int)) ∧
     (failureRoute st (iterateFailures st envl exc now M msg) envl exc now).body
          = msg.body) ∧
    (∀ m : IncomingMessage, (failureRoute st m envl exc now).exchange ≠ .primary) := by
  refine ⟨?_, ?_, ?_, ?_, ?_, ?_⟩
  · intro m
    by_cases h : extract_retry_count m.headers ≥ st.rabbitmq_max_retries <;>
      simp [handle_failure, failureRoute, h]
  · intro m h
    have hn : ¬ extract_retry_count m.headers ≥ st.rabbitmq_max_retries := not_le.mpr h
    refine ⟨by simp [failureRoute, hn], by simp [failureRoute, hn, send_to_retry], ?_, ?_⟩
    · simp only [failureRoute, if_neg hn]
      exact hget_send_to_retry_count st m envl exc _ now
    · simp only [failureRoute, if_neg hn]
      exact hget_send_to_retry_lasterror st m envl exc _ now
  · intro m h
    refine ⟨by simp [failureRoute, h], by simp [failureRoute, h, send_to_dlq], ?_⟩
    simp only [failureRoute, if_pos h]
    exact hget_send_to_dlq_count st m envl exc _ now
  · intro n hn
    obtain ⟨hc, _⟩ := iterateFailures_spec st envl exc now M hM msg h0 n (le_of_lt hn)
    have hlt : ¬ extract_retry_count (iterateFailures st envl exc now n msg).headers
        ≥ st.rabbitmq_max_retries := by
      rw [hc, hM]
      simp only [ge_iff_le, not_le]
      exact_mod_cast hn
    simp [failureRoute, hlt, send_to_retry]
  · obtain ⟨hc, hb⟩ := iterateFailures_spec st envl exc now M hM msg h0 M le_rfl
    have hge : extract_retry_count (iterateFailures st envl exc now M msg).headers
        ≥ st.rabbitmq_max_retries := by
      rw [hc, hM]
    refine ⟨by simp [failureRoute, hge, send_to_dlq], ?_, ?_⟩
    · simp only [failureRoute, if_pos hge]
      rw [hget_send_to_dlq_count, hc]
    · simp only [failureRoute, if_pos hge, send_to_dlq]
      exact hb
  · intro m
    by_cases h : extract_retry_count m.headers ≥ st.rabbitmq_max_retries <;>
      simp [failureRoute, h, send_to_dlq, send_to_retry]

/-- Witness for C1 with `rabbitmq_max_retries = 1` and a fresh message: the
first failure routes to the retry exchange, the second (strictly more than
the maximum) lands in the DLQ carrying `x-retry-count = 1`. -/
theorem C1_retry_dlq_escalation_witness :
    (failureRoute
        { rabbitmq_max_retries := 1, rabbitmq_retry_routing_key := "boards.activity.retry",
          rabbitmq_dlq_routing_key := "boards.activity.dlq",
          redis_idempotency_base := "advanced:idempotency" }
        { body := [1], headers := [] }
        { event_id := "evt-1", board_id := "board-123",
          message := { action := "card.moved", payload := [] },
          published_at := 0, correlation_id := "corr-1", idempotency_key := "corr-1" }
        "boom" 0).exchange = .retry ∧
    (failureRoute
        { rabbitmq_max_retries := 1, rabbitmq_retry_routing_key := "boards.activity.retry",
          rabbitmq_dlq_routing_key := "boards.activity.dlq",
          redis_idempotency_base := "advanced:idempotency" }
        (iterateFailures
          { rabbitmq_max_retries := 1, rabbitmq_retry_routing_key := "boards.activity.retry",
            rabbitmq_dlq_routing_key := "boards.activity.dlq",
            redis_idempotency_base := "advanced:idempotency" }
          { event_id := "evt-1", board_id := "board-123",
            message := { action := "card.moved", payload := [] },
            published_at := 0, correlation_id := "corr-1", idempotency_key := "corr-1" }
          "boom" 0 1 { body := [1], headers := [] })
        { event_id := "evt-1", board_id := "board-123",
          message := { action := "card.moved", payload := [] },
          published_at := 0, correlation_id := "corr-1", idempotency_key := "corr-1" }
        "boom" 0).exchange = .dlq ∧
    hget (failureRoute
        { rabbitmq_max_retries := 1, rabbitmq_retry_routing_key := "boards.activity.retry",
          rabbitmq_dlq_routing_key := "boards.activity.dlq",
          redis_idempotency_base := "advanced:idempotency" }
        (iterateFailures
          { rabbitmq_max_retries := 1, rabbitmq_retry_routing_key := "boards.activity.retry",
            rabbitmq_dlq_routing_key := "boards.activity.dlq",
            redis_idempotency_base := "advanced:idempotency" }
          { event_id := "evt-1", board_id := "board-123",
            message := { action := "card.moved", payload := [] },
            published_at := 0, correlation_id := "corr-1", idempotency_key := "corr-1" }
          "boom" 0 1 { body := [1], headers := [] })
        { event_id := "evt-1", board_id := "board-123",
          message := { action := "card.moved", payload := [] },
          published_at := 0, correlation_id := "corr-1", idempotency_key := "corr-1" }
        "boom" 0).headers "x-retry-count" = some (.int 1) := by
  have h := C1_retry_dlq_escalation
    { rabbitmq_max_retries := 1, rabbitmq_retry_routing_key := "boards.activity.retry",
      rabbitmq_dlq_routing_key := "boards.activity.dlq",
      redis_idempotency_base := "advanced:idempotency" }
    { body := [1], headers := [] }
    { event_id := "evt-1", board_id := "board-123",
      message := { action := "card.moved", payload := [] },
      published_at := 0, correlation_id := "corr-1", idempotency_key := "corr-1" }
    "boom" 0 1 rfl rfl
  exact ⟨h.2.2.2.1 0 (by decide), h.2.2.2.2.1.1, by exact_mod_cast h.2.2.2.2.1.2.1⟩

/-- C7: `publish` raises the "not started" error whenever no publisher is
active; and in durable mode, when the publisher's `start()` raises during
`EventPipeline.start()`, the already-started subscriber is stopped and
cleared, the pipeline (started from the fresh, not-started state) holds no
publisher, and a subsequent publish still raises "not started". -/
theorem C7_pipeline_not_started_and_rollback (s : PipelineState)
    (h : s.publisher = none) :
    pipelinePublish s = .error .notStarted ∧
    (pipelineStart .rabbitmq false s).1 = some .publisherStartFailed ∧
    (pipelineStart .rabbitmq false s).2.publisher = none ∧
    (pipelineStart .rabbitmq false s).2.subscriber = false ∧
    pipelinePublish (pipelineStart .rabbitmq false s).2 = .error .notStarted := by
  refine ⟨?_, rfl, ?_, rfl, ?_⟩
  · simp [pipelinePublish, h]
  · simp [pipelineStart, h]
  · simp [pipelineStart, pipelinePublish, h]

/-- Witness for C7 at the fresh pipeline state. -/
theorem C7_pipeline_not_started_and_rollback_witness :
    pipelinePublish { publisher := none, subscriber := false } = .error .notStarted ∧
    pipelinePublish (pipelineStart .rabbitmq false
        { publisher := none, subscriber := false }).2 = .error .notStarted := by
  have h := C7_pipeline_not_started_and_rollback
    { publisher := none, subscriber := false } rfl
  exact ⟨h.1, h.2.2.2.2⟩

/-- C8: `authenticate_websocket` closes the socket with application close
code 4401 and raises exactly when the supplied token (non-empty `token` query
parameter, else bearer Authorization token; an empty token counts as absent)
is absent or differs from the configured realtime token, and authenticates
otherwise; under the same condition `require_http_token` raises HTTP 401,
and otherwise returns the token. -/
theorem C8_token_enforcement (q : RequestAuthData) (realtime_token : String) :
    (authenticate_websocket q realtime_token = .closed UNAUTHORIZED_CLOSE_CODE ↔
        (suppliedToken q = none ∨ suppliedToken q ≠ some realtime_token)) ∧
    (suppliedToken q = some realtime_token →
        authenticate_websocket q realtime_token = .authenticated realtime_token) ∧
    (require_http_token q realtime_token = .error .unauthorized401 ↔
        (suppliedToken q = none ∨ suppliedToken q ≠ some realtime_token)) ∧
    (suppliedToken q = some realtime_token →
        require_http_token q realtime_token = .ok realtime_token) ∧
    UNAUTHORIZED_CLOSE_CODE = 4401 := by
  cases hl : lookupToken q with
  | none =>
      simp [authenticate_websocket, require_http_token, suppliedToken, collapseEmpty, hl,
        UNAUTHORIZED_CLOSE_CODE]
  | some t =>
      by_cases ht : t = ""
      · subst ht
        simp [authenticate_websocket, require_http_token, suppliedToken, collapseEmpty, hl,
          UNAUTHORIZED_CLOSE_CODE]
      · by_cases heq : t = realtime_token
        · subst heq
          simp [authenticate_websocket, require_http_token, suppliedToken, collapseEmpty, hl,
            ht, UNAUTHORIZED_CLOSE_CODE]
        · simp [authenticate_websocket, require_http_token, suppliedToken, collapseEmpty, hl,
            ht, heq, UNAUTHORIZED_CLOSE_CODE]

/-- Witness for C8: the configured token supplied as a query parameter
authenticates, a wrong query token is closed with 4401. -/
theorem C8_token_enforcement_witness :
    authenticate_websocket { query_token := some "change-me-realtime" }
        "change-me-realtime" = .authenticated "change-me-realtime" ∧
    require_http_token { query_token := some "change-me-realtime" }
        "change-me-realtime" = .ok "change-me-realtime" ∧
    authenticate_websocket { query_token := some "wrong" }
        "change-me-realtime" = .closed 4401 := by
  have h1 := C8_token_enforcement { query_token := some "change-me-realtime" }
    "change-me-realtime"
  have h2 := C8_token_enforcement
    ({ query_token := some "wrong" } : RequestAuthData) "change-me-realtime"
  refine ⟨h1.2.1 (by decide), h1.2.2.2.1 (by decide), ?_⟩
  have := (h2.1).mpr (Or.inr (by decide))
  rw [this, h2.2.2.2.2]

/-- C9 (amended): the consumer's event construction is a pure function of the
envelope fields and the invocation instant: for a non-empty event id, two
invocations of `build_activity_event` on the same envelope-derived inputs
agree on every field except `timestamp`, which is stamped with each
invocation's current time; the registry state does not enter the
construction. -/
theorem C9_build_event_deterministic (b : String) (m : BoardMessage) (e c : String)
    (now₁ now₂ : Nat) (f₁ f₂ : String) (he : e ≠ "") :
    build_activity_event b m (some e) (some c) now₁ f₁
      = { build_activity_event b m (some e) (some c) now₂ f₂ with timestamp := now₁ } ∧
    (build_activity_event b m (some e) (some c) now₁ f₁).timestamp = now₁ := by
  refine ⟨?_, rfl⟩
  simp [build_activity_event, pyOrStr, he]

/-- Witness for C9's amended determinism statement at a concrete envelope. -/
theorem C9_build_event_deterministic_witness :
    build_activity_event "board-123" { action := "card.added", payload := [] }
        (some "evt-1") (some "corr-1") 5 "fresh-a"
      = { build_activity_event "board-123" { action := "card.added", payload := [] }
            (some "evt-1") (some "corr-1") 9 "fresh-b" with timestamp := 5 } := by
  exact (C9_build_event_deterministic "board-123"
    { action := "card.added", payload := [] } "evt-1" "corr-1" 5 9 "fresh-a" "fresh-b"
    (by decide)).1

/-- Counterexample for C9 as stated: two invocations of
`build_activity_event` on the same envelope inputs but at different instants
yield different ActivityEvent values — the `timestamp` field is stamped with
the invocation time, so the event is not a function of the envelope and
registry state alone. -/
theorem C9_build_event_counterexample :
    build_activity_event "board-123" { action := "card.added", payload := [] }
        (some "evt-1") (some "corr-1") 0 "fresh"
      ≠ build_activity_event "board-123" { action := "card.added", payload := [] }
        (some "evt-1") (some "corr-1") 1 "fresh" := by
  intro h
  exact absurd (congrArg ActivityEvent.timestamp h) (by decide)

end FATT
